import Mathlib

/-!
Verification of the bgp-speaker core against its natural-language
specification.  The definitions below are a shallow embedding of the Go
source (package `speaker`): the health-check state machine of
`HealthCheck.Run`, the probe `HealthCheck.Do`, the policy constructors of
the BGP controller, the startup sequence `Speaker.setup`, and the FIB
reconciler of `update_fib.go`.
-/

namespace BgpSpeaker

/-! ## Health checker (healthcheck.go)

`Status` mirrors the Go `Status` enum (`Unhealthy = iota`, `Healthy`).
`HCState` carries the two mutable fields of the Go `HealthCheck` struct
that the ticker loop reads and writes: `status` and `okCounter`.
-/

inductive Status where
  | Unhealthy
  | Healthy
deriving DecidableEq, Repr

/-- Go constant `healthyThreshold = 3`. -/
def healthyThreshold : Nat := 3

structure HCState where
  status : Status
  okCounter : Nat
deriving DecidableEq, Repr

/-- Result of one iteration of the ticker loop: the successor state and
whether each callback was invoked during the iteration (an invoked
callback may still have returned an error). -/
structure TickResult where
  state : HCState
  invokedHealthy : Bool
  invokedUnhealthy : Bool
deriving DecidableEq, Repr

/-- Initial state built by `NewHealthCheck`: `status: Unhealthy`, with the
Go zero value `0` for `okCounter`. -/
def initHC : HCState := ⟨Status.Unhealthy, 0⟩

/-- One iteration of the ticker loop body of `HealthCheck.Run`
(healthcheck.go lines 77-100).  `probeOk` models `hc.Do(ctx) == nil`;
`cbOk` models the invoked callback returning `nil` (at most one callback
runs per tick, so a single flag per tick suffices). -/
def hcTick (s : HCState) (probeOk cbOk : Bool) : TickResult :=
  if probeOk = false ∧ s.status = Status.Healthy then
    -- err != nil && hc.status == Healthy
    if cbOk then ⟨⟨Status.Unhealthy, 0⟩, false, true⟩
    else ⟨s, false, true⟩
  else if probeOk = true ∧ s.status = Status.Unhealthy then
    -- err == nil && hc.status == Unhealthy
    if healthyThreshold ≤ s.okCounter then
      -- hc.okCounter >= healthyThreshold: invoke cbHealthy;
      -- on callback success flip status, okCounter untouched
      if cbOk then ⟨⟨Status.Healthy, s.okCounter⟩, true, false⟩
      else ⟨s, true, false⟩
    else ⟨⟨Status.Unhealthy, s.okCounter + 1⟩, false, false⟩
  else ⟨s, false, false⟩

/-- State after running the loop from the initial state over a list of
tick inputs `(probeOk, cbOk)`. -/
def runTicks (inputs : List (Bool × Bool)) : HCState :=
  inputs.foldl (fun s i => (hcTick s i.1 i.2).state) initHC

/-- Inductive invariant of the loop: the counter never exceeds the
threshold, and in the `Healthy` state the counter is exactly the
threshold (it is not reset on the Unhealthy-to-Healthy transition). -/
def HCInv (s : HCState) : Prop :=
  s.okCounter ≤ healthyThreshold ∧
    (s.status = Status.Healthy → s.okCounter = healthyThreshold)

/-! ## Health probe (HealthCheck.Do) -/

/-- The HTTP response as far as `Do` inspects it: the status code and
whether draining the body with `io.Copy` succeeded. -/
structure HttpResponse where
  statusCode : Nat
  bodyReadOk : Bool
deriving DecidableEq, Repr

/-- Outcome of `hc.client.Do`: a transport error, or a response. -/
inductive TransportResult where
  | transportErr
  | ok (resp : HttpResponse)
deriving DecidableEq, Repr

/-- The three error exits of `HealthCheck.Do`. -/
inductive DoError where
  | httpGetFailed
  | readResponseFailed
  | unexpectedStatusCode (code : Nat)
deriving DecidableEq, Repr

/-- `HealthCheck.Do` (healthcheck.go lines 105-120): transport error,
then body-drain error, then the `StatusCode != 200` check; `none`
models the `nil` return. -/
def Do (r : TransportResult) : Option DoError :=
  match r with
  | TransportResult.transportErr => some DoError.httpGetFailed
  | TransportResult.ok resp =>
      if resp.bodyReadOk = false then some DoError.readResponseFailed
      else if resp.statusCode ≠ 200 then
        some (DoError.unexpectedStatusCode resp.statusCode)
      else none

/-! ## BGP controller: defined-set / policy names and policy constructors

Go constants of the speaker package. -/

def defaultRoute : String := "default-route"

def uplinks : String := "uplinks"

def defaultRoutePolicy : String := "only-default-route"

def onlyAnycastIP : String := "only-anycast-ip"

def anycastIP : String := "anycast-ip"

def globalName : String := "global"

inductive MatchSetType where
  | ANY
  | ALL
  | INVERT
deriving DecidableEq, Repr

/-- `api.MatchSet`: a match-set type and the name of a defined-set. -/
structure MatchSet where
  mtype : MatchSetType
  name : String
deriving DecidableEq, Repr

/-- `api.Conditions_RouteType`; `NONE` is the protobuf zero value used
when the Go code leaves the field unset. -/
inductive RouteType where
  | NONE
  | INTERNAL
  | EXTERNAL
  | LOCAL
deriving DecidableEq, Repr

inductive RouteAction where
  | NONE
  | ACCEPT
  | REJECT
deriving DecidableEq, Repr

/-- The fields of `api.Conditions` the speaker sets; `none` models a nil
protobuf sub-message. -/
structure Conditions where
  prefixSet : Option MatchSet
  neighborSet : Option MatchSet
  routeType : RouteType
deriving DecidableEq, Repr

structure Actions where
  routeAction : RouteAction
deriving DecidableEq, Repr

structure Statement where
  name : String
  conditions : Conditions
  actions : Actions
deriving DecidableEq, Repr

structure Policy where
  name : String
  statements : List Statement
deriving DecidableEq, Repr

inductive PolicyDirection where
  | IMPORT
  | EXPORT
deriving DecidableEq, Repr

structure PolicyAssignment where
  name : String
  direction : PolicyDirection
  policies : List Policy
  defaultAction : RouteAction
deriving DecidableEq, Repr

/-- `Speaker.createDefaultRoutePolicy`. -/
def createDefaultRoutePolicy : Policy :=
  { name := defaultRoutePolicy
    statements :=
      [{ name := "allow-default-route"
         conditions :=
           { prefixSet := some ⟨MatchSetType.ANY, defaultRoute⟩
             neighborSet := some ⟨MatchSetType.ANY, uplinks⟩
             routeType := RouteType.NONE }
         actions := ⟨RouteAction.ACCEPT⟩ }] }

/-- `Speaker.createAnycastIPPolicy` (the export-direction anycast
policy). -/
def createAnycastIPPolicy : Policy :=
  { name := onlyAnycastIP
    statements :=
      [{ name := "allow-anycast-ip"
         conditions :=
           { prefixSet := some ⟨MatchSetType.ANY, anycastIP⟩
             neighborSet := some ⟨MatchSetType.ANY, uplinks⟩
             routeType := RouteType.NONE }
         actions := ⟨RouteAction.ACCEPT⟩ }] }

/-- `Speaker.createAnycastIPPolicyImport` (the import-direction anycast
policy). -/
def createAnycastIPPolicyImport : Policy :=
  { name := onlyAnycastIP
    statements :=
      [{ name := "allow-anycast-ip-igp"
         conditions :=
           { prefixSet := some ⟨MatchSetType.ANY, anycastIP⟩
             neighborSet := none
             routeType := RouteType.LOCAL }
         actions := ⟨RouteAction.ACCEPT⟩ }] }

/-- The policies `setupPolicies` installs, in `AddPolicy` call order. -/
def installedPolicies : List Policy :=
  [createDefaultRoutePolicy, createAnycastIPPolicy, createAnycastIPPolicyImport]

/-- The import-direction assignment created by `setupPolicies`. -/
def importAssignment : PolicyAssignment :=
  { name := globalName
    direction := PolicyDirection.IMPORT
    policies := [createDefaultRoutePolicy, createAnycastIPPolicyImport]
    defaultAction := RouteAction.REJECT }

/-- The export-direction assignment created by `setupPolicies`. -/
def exportAssignment : PolicyAssignment :=
  { name := globalName
    direction := PolicyDirection.EXPORT
    policies := [createAnycastIPPolicy]
    defaultAction := RouteAction.REJECT }

/-! ## Startup sequence (Speaker.setup) -/

/-- The four engine calls `Speaker.setup` can make, in source order. -/
inductive SetupStep where
  | startBgp
  | setupPolicies
  | addNeighbors
  | addPath
deriving DecidableEq, Repr

/-- Which of the four engine calls would fail if executed (the outcome
of the embedded BGP engine, an input to `setup`). -/
structure SetupOutcome where
  failStart : Bool
  failPolicies : Bool
  failNeighbors : Bool
  failAddPath : Bool
deriving DecidableEq, Repr

/-- One engine call: it is appended to the execution trace and reports
whether it failed. -/
def runStep (st : SetupStep) (fails : Bool) (tr : List SetupStep) :
    List SetupStep × Bool :=
  (tr ++ [st], fails)

/-- `Speaker.setup` (the concatenated speaker source, `setup` method):
`startBgp`, then `setupPolicies`, then `addNeighbors`, then — only when
`config.HealthCheckURL == ""` — `addPath`; each failing call returns its
(wrapped) error immediately.  The result is the trace of executed calls
and `some st` when call `st` failed (modelling the identity of the
returned error), `none` for a `nil` return. -/
def setup (healthCheckURL : String) (o : SetupOutcome) :
    List SetupStep × Option SetupStep :=
  let r1 := runStep SetupStep.startBgp o.failStart []
  if r1.2 then (r1.1, some SetupStep.startBgp) else
  let r2 := runStep SetupStep.setupPolicies o.failPolicies r1.1
  if r2.2 then (r2.1, some SetupStep.setupPolicies) else
  let r3 := runStep SetupStep.addNeighbors o.failNeighbors r2.1
  if r3.2 then (r3.1, some SetupStep.addNeighbors) else
  if healthCheckURL = "" then
    let r4 := runStep SetupStep.addPath o.failAddPath r3.1
    if r4.2 then (r4.1, some SetupStep.addPath) else (r4.1, none)
  else (r3.1, none)

/-- The failure oracle of a `SetupOutcome` as a function on steps. -/
def failsStep (o : SetupOutcome) : SetupStep → Bool
  | SetupStep.startBgp => o.failStart
  | SetupStep.setupPolicies => o.failPolicies
  | SetupStep.addNeighbors => o.failNeighbors
  | SetupStep.addPath => o.failAddPath

/-- The steps the spec says startup performs, in order:
`start → install_policy → add_peers → (if gate disabled) advertise`. -/
def setupStepsPlanned (healthCheckURL : String) : List SetupStep :=
  [SetupStep.startBgp, SetupStep.setupPolicies, SetupStep.addNeighbors] ++
    (if healthCheckURL = "" then [SetupStep.addPath] else [])

/-- Spec-side executor, written from the spec's words: run the planned
steps in order, and any failure aborts immediately (the failing step is
the last one executed and its error is returned). -/
def specExecute (fails : SetupStep → Bool) : List SetupStep → List SetupStep × Option SetupStep
  | [] => ([], none)
  | st :: rest =>
      if fails st then ([st], some st)
      else
        let r := specExecute fails rest
        (st :: r.1, r.2)

/-! ## FIB reconciler (update_fib.go)

Netlink constants of update_fib.go. -/

def protoBgp : Nat := 186

def rtTableMain : Nat := 254

def familyAfInet : Nat := 2

def typeUnicast : Nat := 1

def scopeGlobal : Nat := 0

/-- Modelled from the spec: the constant the reconciler compares RIB
destination prefixes against is not under src/ (update_fib.go refers to
a `zeroPrefix` defined elsewhere); the spec fixes it as the default
route `0.0.0.0/0`. -/
def zeroPfx : String := "0.0.0.0/0"

/-- A path attribute of `api.Path.Pattrs`; `Do`-style protobuf `Any`
values are modelled by their unpacked content. -/
inductive Pattr where
  | originAttr (origin : Nat)
  | nextHopAttr (nh : String)
  | unknownAttr
deriving DecidableEq, Repr

structure ApiPath where
  pattrs : List Pattr
deriving DecidableEq, Repr

/-- An `api.Destination` of the BGP global table: its prefix string and
its paths. -/
structure Destination where
  destPfx : String
  paths : List ApiPath
deriving DecidableEq, Repr

/-- The fields of `rtnetlink.RouteMessage` the reconciler reads.
`rtype` is the Go field `Type`; `gateway` is the rendered
`Attributes.Gateway.String()`; `multipath` is `none` for a nil
`Attributes.Multipath` and otherwise the rendered gateway of each next
hop. -/
structure RouteMessage where
  protocol : Nat
  dstLength : Nat
  table : Nat
  family : Nat
  rtype : Nat
  scope : Nat
  priority : Nat
  gateway : String
  multipath : Option (List String)
deriving DecidableEq, Repr

/-- A netlink mutation executed by the reconciler (an `Execute` with
`newRoute` and the REPLACE flag set). -/
inductive NetlinkOp where
  | replaceSingle (gateway : String) (priority : Nat)
  | replaceMulti (gateways : List String) (priority : Nat)
deriving DecidableEq, Repr

/-- `nextHop` helper: the first `NextHopAttribute` among the path
attributes, `Except.error` (with the source's message, typo included)
when there is none. -/
def nextHopAux : List Pattr → Except String String
  | [] => Except.error "faild to extract next hop from gobgp api.Path"
  | Pattr.nextHopAttr nh :: _ => Except.ok nh
  | Pattr.originAttr _ :: rest => nextHopAux rest
  | Pattr.unknownAttr :: rest => nextHopAux rest

def nextHop (p : ApiPath) : Except String String :=
  nextHopAux p.pattrs

/-- `Speaker.linuxRouteIsMine`: the seven-field ownership predicate;
`metric` models the `sp.linuxRouteMetric` field (the configured
`update_fib_metric`). -/
def linuxRouteIsMine (metric : Nat) (route : RouteMessage) : Bool :=
  route.protocol == protoBgp &&
  route.dstLength == 0 &&
  route.table == rtTableMain &&
  route.family == familyAfInet &&
  route.rtype == typeUnicast &&
  route.scope == scopeGlobal &&
  route.priority == metric

/-- `Speaker.getLinuxBGPDefaultRoute`: dump the kernel routes and return
the first one satisfying `linuxRouteIsMine`, `none` when there is none.
(The Go type-assertion failure on a non-route message cannot arise in
this typed model.) -/
def getLinuxBGPDefaultRoute (metric : Nat) (msgs : List RouteMessage) :
    Option RouteMessage :=
  msgs.find? (linuxRouteIsMine metric)

/-- Dotted-quad IPv4 check, modelling `net.ParseIP(s).To4() != nil` for
the gateway strings the reconciler handles (four decimal octets, each
0-255, no leading zeros; IPv6 texts are not modelled). -/
def isIPv4String (s : String) : Bool :=
  let parts := s.splitOn "."
  parts.length == 4 &&
    parts.all (fun p =>
      p.length > 0 && p.length ≤ 3 &&
      p.all Char.isDigit &&
      (p.length == 1 || !(p.startsWith "0")) &&
      (match p.toNat? with
       | some v => v ≤ 255
       | none => false))

/-- The tail of `setSinglePathRoute` past the no-op check: parse the
gateway (error when not IPv4) and execute one REPLACE. -/
def setSinglePathReplace (metric : Nat) (newGateway : String) :
    Except String Unit × List NetlinkOp :=
  if isIPv4String newGateway then
    (Except.ok (), [NetlinkOp.replaceSingle newGateway metric])
  else (Except.error "gateway is not ipv4: unsupported operation", [])

/-- `Speaker.setSinglePathRoute` (update_fib.go lines 106-136): extract
the path's next hop, and if the "ours" kernel route exists with that
very gateway, do nothing; otherwise REPLACE. -/
def setSinglePathRoute (metric : Nat) (kernel : List RouteMessage)
    (path : ApiPath) : Except String Unit × List NetlinkOp :=
  match nextHop path with
  | Except.error e => (Except.error ("failed to retrieve gateway: " ++ e), [])
  | Except.ok newGateway =>
      match getLinuxBGPDefaultRoute metric kernel with
      | some oldDefaultRoute =>
          if oldDefaultRoute.gateway == newGateway then (Except.ok (), [])
          else setSinglePathReplace metric newGateway
      | none => setSinglePathReplace metric newGateway

/-- Insertion into the deduplicated next-hop collection (the Go
`map[string]struct{}`; insertion order stands in for Go's unspecified
map iteration order, which only affects the layout of the REPLACE
message). -/
def insertNextHop (acc : List String) (nh : String) : List String :=
  if acc.contains nh then acc else acc ++ [nh]

/-- The next-hop collection loop of `setMultiPathRoute`: extract each
path's next hop (propagating the first extraction error) into the
deduplicated collection. -/
def collectNextHops : List ApiPath → List String → Except String (List String)
  | [], acc => Except.ok acc
  | p :: rest, acc =>
      match nextHop p with
      | Except.error e => Except.error ("failed to retrieve gateway: " ++ e)
      | Except.ok nh => collectNextHops rest (insertNextHop acc nh)

/-- `Speaker.setMultiPathRoute` (update_fib.go lines 138-185): collect
the deduplicated next-hop set; if the "ours" kernel route exists, has a
non-nil multipath attribute of the same cardinality, and every existing
gateway belongs to the new set, do nothing; otherwise validate each
gateway as IPv4 and execute one multipath REPLACE. -/
def setMultiPathRoute (metric : Nat) (kernel : List RouteMessage)
    (paths : List ApiPath) : Except String Unit × List NetlinkOp :=
  match collectNextHops paths [] with
  | Except.error e => (Except.error e, [])
  | Except.ok newNextHops =>
      let agree : Bool :=
        match getLinuxBGPDefaultRoute metric kernel with
        | some oldDefaultRoute =>
            match oldDefaultRoute.multipath with
            | some mp =>
                (mp.length == newNextHops.length) &&
                mp.all (fun oldNextHop => newNextHops.contains oldNextHop)
            | none => false
        | none => false
      if agree then (Except.ok (), [])
      else if newNextHops.all isIPv4String then
        (Except.ok (), [NetlinkOp.replaceMulti newNextHops metric])
      else (Except.error "gateway is not ipv4: unsupported operation", [])

/-- `Speaker.setDefaultRoute` (update_fib.go lines 53-81), one reconciler
tick past the `ListPath` call: filter the listed destinations down to
the default prefix; zero destinations is a silent no-op, more than one
is an error (source's message, typo included) without touching the FIB,
and exactly one dispatches on its path count to the single-path or
multi-path branch. -/
def setDefaultRoute (metric : Nat) (ribDests : List Destination)
    (kernel : List RouteMessage) : Except String Unit × List NetlinkOp :=
  let defaultRoutes := ribDests.filter (fun d => d.destPfx == zeroPfx)
  match defaultRoutes with
  | [] => (Except.ok (), [])
  | [d] =>
      match d.paths with
      | [p] => setSinglePathRoute metric kernel p
      | ps => setMultiPathRoute metric kernel ps
  | _ => (Except.error "unexpeted number of default routes: unsupported operation", [])

theorem hcTick_inv (s : HCState) (p c : Bool) (h : HCInv s) :
    HCInv (hcTick s p c).state := by
  obtain ⟨h1, h2⟩ := h
  unfold hcTick HCInv
  split_ifs with hA hB hC hD hE <;> simp_all [healthyThreshold] <;> omega

theorem foldl_hcTick_inv (l : List (Bool × Bool)) :
    ∀ s : HCState, HCInv s →
      HCInv (l.foldl (fun s i => (hcTick s i.1 i.2).state) s) := by
  induction l with
  | nil => intro s h; simpa using h
  | cons i rest ih =>
      intro s h
      simpa using ih _ (hcTick_inv s i.1 i.2 h)

theorem runTicks_inv (inputs : List (Bool × Bool)) : HCInv (runTicks inputs) := by
  have h0 : HCInv initHC := by
    constructor
    · simp [initHC, healthyThreshold]
    · intro h; simp [initHC] at h
  simpa [runTicks] using foldl_hcTick_inv inputs initHC h0

/-- State reached from the initial state by `m` consecutive successful
probes whose callbacks succeed: the counter climbs to 3 in the first
three ticks, the fourth tick flips the status to `Healthy` and leaves
the counter at 3. -/
theorem runTicks_replicate_ok (m : Nat) :
    runTicks (List.replicate m (true, true)) =
      if m ≤ 3 then ⟨Status.Unhealthy, m⟩ else ⟨Status.Healthy, 3⟩ := by
  induction m with
  | zero => simp [runTicks, initHC]
  | succ n ih =>
      have hsplit : List.replicate (n + 1) ((true : Bool), (true : Bool)) =
          List.replicate n ((true : Bool), (true : Bool)) ++ [(true, true)] :=
        List.replicate_succ' _ _
      have hstep : runTicks (List.replicate (n + 1) (true, true)) =
          (hcTick (runTicks (List.replicate n (true, true))) true true).state := by
        simp [runTicks, hsplit, List.foldl_append]
      rw [hstep, ih]
      by_cases h3 : n ≤ 3
      · rw [if_pos h3]
        by_cases hlt : n < 3
        · have hth : ¬ healthyThreshold ≤ n := by unfold healthyThreshold; omega
          have hle : n + 1 ≤ 3 := by omega
          simp [hcTick, hth, hle]
        · have hn3 : n = 3 := by omega
          subst hn3
          have hnot : ¬ (3 + 1 ≤ 3) := by omega
          rw [if_neg hnot]
          decide
      · rw [if_neg h3]
        have hnot : ¬ (n + 1 ≤ 3) := by omega
        rw [if_neg hnot]
        decide

/-- C1, counterexample: on the tick of the 3rd consecutive probe success
from the initial state, `on_healthy` is NOT invoked (the loop checks
`okCounter >= 3` before incrementing, so the 3rd success only raises the
counter to 3 and the status is still Unhealthy); moreover, on the
success tick that does invoke the callback the counter is not
incremented. -/
theorem hc_third_success_no_invoke :
    (hcTick (runTicks (List.replicate 2 (true, true))) true true).invokedHealthy = false ∧
    (runTicks (List.replicate 3 (true, true))).status = Status.Unhealthy ∧
    (hcTick ⟨Status.Unhealthy, 3⟩ true true).state.okCounter = 3 := by
  decide

/-- C1 (amended): on a success tick in the Unhealthy state the counter
is incremented exactly while it is strictly below the threshold 3 (and
`on_healthy` is not invoked then); under a run of consecutive probe
successes whose `on_healthy` callback succeeds, `on_healthy` is invoked
on the tick of the 4th consecutive success and on no other tick — in
particular never earlier. -/
theorem hc_first_invoke_on_fourth_success :
    (∀ (s : HCState) (c : Bool), s.status = Status.Unhealthy →
        s.okCounter < healthyThreshold →
        (hcTick s true c).state.okCounter = s.okCounter + 1 ∧
        (hcTick s true c).invokedHealthy = false) ∧
    (∀ k : Nat,
        (hcTick (runTicks (List.replicate k (true, true))) true true).invokedHealthy
          = decide (k = 3)) := by
  constructor
  · intro s c hU hlt
    have hth : ¬ healthyThreshold ≤ s.okCounter := Nat.not_le.mpr hlt
    constructor <;> simp [hcTick, hU, hth]
  · intro k
    rw [runTicks_replicate_ok]
    by_cases h3 : k ≤ 3
    · by_cases hlt : k < 3
      · rw [if_pos h3]
        have hth : ¬ healthyThreshold ≤ k := by unfold healthyThreshold; omega
        have hne : ¬ (k = 3) := by omega
        simp [hcTick, hth, hne]
      · have hk : k = 3 := by omega
        subst hk
        decide
    · rw [if_neg h3]
      have hne : ¬ (k = 3) := by omega
      simp [hcTick, hne]

/-- C1, witness for the amended theorem at concrete inputs. -/
theorem hc_first_invoke_on_fourth_success_witness :
    (hcTick ⟨Status.Unhealthy, 0⟩ true true).state.okCounter = 0 + 1 ∧
    (hcTick (runTicks (List.replicate 3 (true, true))) true true).invokedHealthy
      = decide (3 = 3) :=
  ⟨(hc_first_invoke_on_fourth_success.1 ⟨Status.Unhealthy, 0⟩ true rfl (by decide)).1,
   hc_first_invoke_on_fourth_success.2 3⟩

/-- C2, counterexample: the state reached by four consecutive successful
probes with succeeding callbacks has `okCounter = 3 > 0` but status
`Healthy`, refuting the invariant `consecutive_ok_count > 0 ⇒ status =
Unhealthy` (the Unhealthy→Healthy transition does not reset the
counter). -/
theorem hc_invariant_counterexample :
    0 < (runTicks (List.replicate 4 (true, true))).okCounter ∧
    (runTicks (List.replicate 4 (true, true))).status ≠ Status.Unhealthy := by
  decide

/-- C2 (amended): in every reachable state of the health-check loop,
`consecutive_ok_count > 0` implies status is Unhealthy OR the counter
equals the threshold 3 (the latter is exactly the Healthy case, since
the counter is not reset on the Unhealthy→Healthy transition). -/
theorem hc_counter_pos_status (inputs : List (Bool × Bool))
    (h : 0 < (runTicks inputs).okCounter) :
    (runTicks inputs).status = Status.Unhealthy ∨
      (runTicks inputs).okCounter = healthyThreshold := by
  rcases runTicks_inv inputs with ⟨hle, hH⟩
  cases hst : (runTicks inputs).status with
  | Unhealthy => exact Or.inl rfl
  | Healthy => exact Or.inr (hH hst)

/-- C2, witness for the amended theorem at a concrete input. -/
theorem hc_counter_pos_status_witness :
    (runTicks [(true, true)]).status = Status.Unhealthy ∨
      (runTicks [(true, true)]).okCounter = healthyThreshold :=
  hc_counter_pos_status [(true, true)] (by decide)

/-- C4, counterexample: a probe-failure tick in the Unhealthy state does
NOT reset the counter — after one success (counter 1) and one failure
the counter is still 1, refuting "reset to 0 on every failure tick". -/
theorem failure_tick_keeps_counter :
    (runTicks [(true, true), (false, true)]).okCounter = 1 ∧
    (runTicks [(true, true), (false, true)]).okCounter ≠ 0 := by
  decide

/-- C4 (amended): the counter is reset to 0 exactly on the failure ticks
that complete a Healthy→Unhealthy transition (status Healthy and
`on_unhealthy` succeeding); a failure tick in the Unhealthy state, or
one whose callback fails, leaves the state (counter included)
unchanged. -/
theorem counter_reset_on_transition_only (s : HCState) (c : Bool) :
    (s.status = Status.Healthy → c = true →
        (hcTick s false c).state = ⟨Status.Unhealthy, 0⟩) ∧
    (s.status = Status.Unhealthy → (hcTick s false c).state = s) ∧
    (s.status = Status.Healthy → c = false → (hcTick s false c).state = s) := by
  refine ⟨fun h hc => ?_, fun h => ?_, fun h hc => ?_⟩
  · simp [hcTick, h, hc]
  · simp [hcTick, h]
  · simp [hcTick, h, hc]

/-- C4, witness for the amended theorem at concrete inputs. -/
theorem counter_reset_on_transition_only_witness :
    (hcTick ⟨Status.Healthy, 3⟩ false true).state = ⟨Status.Unhealthy, 0⟩ ∧
    (hcTick ⟨Status.Unhealthy, 2⟩ false true).state = ⟨Status.Unhealthy, 2⟩ :=
  ⟨(counter_reset_on_transition_only ⟨Status.Healthy, 3⟩ true).1 rfl rfl,
   (counter_reset_on_transition_only ⟨Status.Unhealthy, 2⟩ true).2.1 rfl⟩

/-- C10: in every reachable state of the health-check loop the counter
satisfies `0 ≤ okCounter ≤ 3` (the lower bound holds since the counter
is a natural number), and a tick strictly increases the counter only
when the counter is strictly below the threshold 3. -/
theorem okCounter_bounded :
    (∀ inputs : List (Bool × Bool), (runTicks inputs).okCounter ≤ 3) ∧
    (∀ (s : HCState) (p c : Bool),
        s.okCounter < (hcTick s p c).state.okCounter →
        s.okCounter < healthyThreshold) := by
  constructor
  · intro inputs
    simpa [healthyThreshold] using (runTicks_inv inputs).1
  · intro s p c h
    unfold hcTick at h
    split_ifs at h <;> simp_all [healthyThreshold]

/-- C10, witness at concrete inputs. -/
theorem okCounter_bounded_witness :
    (runTicks [(true, true)]).okCounter ≤ 3 ∧
    (⟨Status.Unhealthy, 0⟩ : HCState).okCounter < healthyThreshold :=
  ⟨okCounter_bounded.1 [(true, true)],
   okCounter_bounded.2 ⟨Status.Unhealthy, 0⟩ true true (by decide)⟩

/-- C9: `HealthCheck.Do` returns nil exactly when the transport
succeeds, the body is drained without error, and the status code is
exactly 200; every other outcome yields an error. -/
theorem do_success_iff (r : TransportResult) :
    Do r = none ↔
      ∃ resp, r = TransportResult.ok resp ∧
        resp.bodyReadOk = true ∧ resp.statusCode = 200 := by
  cases r with
  | transportErr => simp [Do]
  | ok resp =>
      by_cases hb : resp.bodyReadOk <;> by_cases hs : resp.statusCode = 200 <;>
        simp [Do, hb, hs]

/-- C3, counterexample: the import-direction and export-direction
anycast policies are created under the SAME name `"only-anycast-ip"`
(neither carries the spec's `-import`/`-export` suffix), so the three
installed policies do not carry three distinct names. -/
theorem anycast_policy_names_not_distinct :
    createAnycastIPPolicy.name = createAnycastIPPolicyImport.name ∧
    createAnycastIPPolicyImport.name ≠ "only-anycast-ip-import" ∧
    createAnycastIPPolicy.name ≠ "only-anycast-ip-export" ∧
    (installedPolicies.map Policy.name).dedup.length ≠ 3 := by
  decide

/-- C3 (amended): `setupPolicies` installs the default-route policy
under `"only-default-route"` and BOTH anycast policies under the single
shared name `"only-anycast-ip"`, so exactly two distinctly named
policies exist after policy installation; the import assignment carries
the import-direction anycast policy and the export assignment the
export-direction one. -/
theorem anycast_policy_names_shared :
    installedPolicies.map Policy.name = [defaultRoutePolicy, onlyAnycastIP, onlyAnycastIP] ∧
    (installedPolicies.map Policy.name).dedup = [defaultRoutePolicy, onlyAnycastIP] ∧
    importAssignment.policies = [createDefaultRoutePolicy, createAnycastIPPolicyImport] ∧
    exportAssignment.policies = [createAnycastIPPolicy] ∧
    createAnycastIPPolicyImport.name = onlyAnycastIP ∧
    createAnycastIPPolicy.name = onlyAnycastIP := by
  refine ⟨rfl, by decide, rfl, rfl, rfl, rfl⟩

/-- C8: `Speaker.setup` refines the spec's startup contract — it behaves
exactly like running the planned step list `start → install_policy →
add_peers → (if the gate is disabled) advertise` in order, aborting at
the first failing step with that step's error and executing none of the
subsequent steps. -/
theorem setup_refines_spec (url : String) (o : SetupOutcome) :
    setup url o = specExecute (failsStep o) (setupStepsPlanned url) := by
  rcases o with ⟨fs, fp, fn, fa⟩
  by_cases hu : url = "" <;>
    cases fs <;> cases fp <;> cases fn <;> cases fa <;>
      simp [setup, runStep, failsStep, setupStepsPlanned, specExecute, hu]

/-- C6: on a reconciler tick, zero default-route destinations in the BGP
global table yield a nil return and no netlink mutation, and more than
one yields an error return and no netlink mutation. -/
theorem setDefaultRoute_zero_or_many (metric : Nat) (dests : List Destination)
    (kernel : List RouteMessage) :
    (dests.filter (fun d => d.destPfx == zeroPfx) = [] →
        setDefaultRoute metric dests kernel = (Except.ok (), [])) ∧
    (2 ≤ (dests.filter (fun d => d.destPfx == zeroPfx)).length →
        setDefaultRoute metric dests kernel =
          (Except.error "unexpeted number of default routes: unsupported operation", [])) := by
  constructor
  · intro h
    simp [setDefaultRoute, h]
  · intro h
    rcases hf : dests.filter (fun d => d.destPfx == zeroPfx) with _ | ⟨d, _ | ⟨e, rest⟩⟩
    · rw [hf] at h; simp at h
    · rw [hf] at h; simp at h
    · simp [setDefaultRoute, hf]

/-- C6, witness at concrete inputs: an empty table and a table with two
default destinations. -/
theorem setDefaultRoute_zero_or_many_witness :
    setDefaultRoute 170 [] [] = (Except.ok (), []) ∧
    setDefaultRoute 170 [⟨"0.0.0.0/0", []⟩, ⟨"0.0.0.0/0", []⟩] [] =
      (Except.error "unexpeted number of default routes: unsupported operation", []) :=
  ⟨(setDefaultRoute_zero_or_many 170 [] []).1 (by decide),
   (setDefaultRoute_zero_or_many 170 [⟨"0.0.0.0/0", []⟩, ⟨"0.0.0.0/0", []⟩] []).2
      (by decide)⟩

/-- C5: reconciler no-op law.  Single-path branch: when the "ours"
kernel route exists and its gateway equals the path's next hop, the tick
performs no netlink mutation.  Multi-path branch: when the "ours" route
exists with a multipath attribute of the same cardinality as the
deduplicated next-hop set and every existing gateway belongs to that
set, the tick performs no netlink mutation. -/
theorem reconciler_noop :
    (∀ (metric : Nat) (kernel : List RouteMessage) (path : ApiPath)
        (old : RouteMessage) (gw : String),
        nextHop path = Except.ok gw →
        getLinuxBGPDefaultRoute metric kernel = some old →
        old.gateway = gw →
        setSinglePathRoute metric kernel path = (Except.ok (), [])) ∧
    (∀ (metric : Nat) (kernel : List RouteMessage) (paths : List ApiPath)
        (hops : List String) (old : RouteMessage) (mp : List String),
        collectNextHops paths [] = Except.ok hops →
        getLinuxBGPDefaultRoute metric kernel = some old →
        old.multipath = some mp →
        mp.length = hops.length →
        mp.all (fun g => hops.contains g) = true →
        setMultiPathRoute metric kernel paths = (Except.ok (), [])) := by
  constructor
  · intro metric kernel path old gw hnh hold hgw
    simp [setSinglePathRoute, hnh, hold, hgw]
  · intro metric kernel paths hops old mp hc hold hmp hlen hall
    simp [setMultiPathRoute, hc, hold, hmp, hlen, hall]
    intro x hx hnx
    rw [List.all_eq_true] at hall
    have hcontains := hall x hx
    simp at hcontains
    exact absurd hcontains hnx

/-- C5, witness: a concrete agreeing single-path tick and a concrete
agreeing multi-path tick, each executing no mutation. -/
theorem reconciler_noop_witness :
    setSinglePathRoute 170 [⟨186, 0, 254, 2, 1, 0, 170, "10.1.0.1", none⟩]
        ⟨[Pattr.nextHopAttr "10.1.0.1"]⟩ = (Except.ok (), []) ∧
    setMultiPathRoute 170
        [⟨186, 0, 254, 2, 1, 0, 170, "<nil>", some ["10.2.0.1", "10.1.0.1"]⟩]
        [⟨[Pattr.nextHopAttr "10.1.0.1"]⟩, ⟨[Pattr.nextHopAttr "10.2.0.1"]⟩] =
      (Except.ok (), []) :=
  ⟨reconciler_noop.1 170 [⟨186, 0, 254, 2, 1, 0, 170, "10.1.0.1", none⟩]
      ⟨[Pattr.nextHopAttr "10.1.0.1"]⟩ ⟨186, 0, 254, 2, 1, 0, 170, "10.1.0.1", none⟩
      "10.1.0.1" rfl rfl rfl,
   reconciler_noop.2 170
      [⟨186, 0, 254, 2, 1, 0, 170, "<nil>", some ["10.2.0.1", "10.1.0.1"]⟩]
      [⟨[Pattr.nextHopAttr "10.1.0.1"]⟩, ⟨[Pattr.nextHopAttr "10.2.0.1"]⟩]
      ["10.1.0.1", "10.2.0.1"] ⟨186, 0, 254, 2, 1, 0, 170, "<nil>", some ["10.2.0.1", "10.1.0.1"]⟩
      ["10.2.0.1", "10.1.0.1"] rfl rfl rfl rfl rfl⟩

/-- C7: the ownership predicate `linuxRouteIsMine` holds exactly when
all seven fields match (protocol 186, dst_length 0, table 254, family
AF_INET = 2, type unicast = 1, scope global = 0, priority equal to the
configured metric), and any route the reconciler selects as "ours" via
`getLinuxBGPDefaultRoute` satisfies the predicate and comes from the
dumped kernel routes — so a route failing any condition is never
selected. -/
theorem linuxRouteIsMine_spec (metric : Nat) (msgs : List RouteMessage)
    (route : RouteMessage) :
    (linuxRouteIsMine metric route = true ↔
      (route.protocol = 186 ∧ route.dstLength = 0 ∧ route.table = 254 ∧
       route.family = 2 ∧ route.rtype = 1 ∧ route.scope = 0 ∧
       route.priority = metric)) ∧
    (getLinuxBGPDefaultRoute metric msgs = some route →
      linuxRouteIsMine metric route = true ∧ route ∈ msgs) := by
  constructor
  · simp [linuxRouteIsMine, protoBgp, rtTableMain, familyAfInet, typeUnicast,
      scopeGlobal, Bool.and_eq_true, beq_iff_eq]
    tauto
  · intro h
    unfold getLinuxBGPDefaultRoute at h
    exact ⟨List.find?_some h, List.mem_of_find?_eq_some h⟩

/-- C7, witness: a concrete matching route is selected and satisfies the
predicate. -/
theorem linuxRouteIsMine_spec_witness :
    linuxRouteIsMine 170 ⟨186, 0, 254, 2, 1, 0, 170, "10.1.0.1", none⟩ = true ∧
    (⟨186, 0, 254, 2, 1, 0, 170, "10.1.0.1", none⟩ : RouteMessage) ∈
      [(⟨186, 0, 254, 2, 1, 0, 170, "10.1.0.1", none⟩ : RouteMessage)] :=
  (linuxRouteIsMine_spec 170 [⟨186, 0, 254, 2, 1, 0, 170, "10.1.0.1", none⟩]
      ⟨186, 0, 254, 2, 1, 0, 170, "10.1.0.1", none⟩).2 rfl

end BgpSpeaker
